import Mathlib

/-!
Verification development for the voice-pipeline core of the repository:
per-speaker audio capture (src/discord/receiver.ts), the Deepgram streaming
transcription channel (src/voice/pipeline.ts, class DeepgramSTT), the
utterance assembler and session controller (src/discord/voice.ts,
class VoiceHandler), and the pipeline facade (class VoicePipeline).

The embedding is shallow: each TypeScript class becomes a Lean structure
holding its instance fields, and each method becomes a pure function from
the structure (plus any needed environment) to an updated structure together
with the externally observable action.  Asynchronous timers (the finalization
timer of the transcript buffer, the reconnect backoff timer, the keep-alive
interval) are modelled by explicit bookkeeping fields: `pendingTimers` counts
finalization timers that are scheduled and neither fired nor cancelled, and
`pendingReconnect` records a scheduled reconnect callback together with its
delay.  External collaborators (the LLM reply generator and the TTS
synthesizer, which the session controller awaits and which may reject) are
modelled as an explicit environment of `Except`-valued functions; a thrown
JavaScript exception is the `Except.error` case.
-/

/-- A PCM chunk / audio buffer: its byte sequence. -/
abbrev Chunk := List Nat

namespace VoicePipeline

/-- `VoicePipeline.processAudio` (src/voice/pipeline.ts lines 10-14): the
method only logs the received byte count and returns the empty string; no
transcription is performed. -/
def processAudio (_audioBuffer : Chunk) : String := ""

/-- `VoicePipeline.generateResponse` (src/voice/pipeline.ts lines 16-20):
stub returning a fixed acknowledgement. -/
def generateResponse (_text : String) : String := "Acknowledged."

end VoicePipeline

/-! ## DeepgramSTT (src/voice/pipeline.ts, second document)

The transcription channel: a WebSocket client with reconnect backoff and a
keep-alive interval.  `wsOpen` models the `ws` field: `none` when `ws` is
null, `some b` when a socket object exists with `b` recording whether its
`readyState` is `OPEN`.  `pendingReconnect` models a scheduled (unfired)
reconnect `setTimeout`, carrying its delay; the source never stores this
timer's handle, so nothing can cancel it.  `keepAlive` records whether the
keep-alive interval is set. -/

inductive ConnState
  | disconnected
  | connecting
  | connected
  deriving DecidableEq, Repr

structure DeepgramSTT where
  wsOpen : Option Bool
  reconnectAttempts : Nat
  isConnected : Bool
  keepAlive : Bool
  connectionState : ConnState
  audioBytesSent : Nat
  pendingReconnect : Option Nat
  deriving DecidableEq, Repr

namespace DeepgramSTT

/-- `maxReconnectAttempts = 5` (field initializer, line 89). -/
def maxReconnectAttempts : Nat := 5

/-- `reconnectDelay = 1000` (field initializer, line 90). -/
def reconnectDelay : Nat := 1000

/-- The freshly constructed client: `ws = null`, counters zero,
state `disconnected` (field initializers, lines 86-97). -/
def mk0 : DeepgramSTT :=
  { wsOpen := none
    reconnectAttempts := 0
    isConnected := false
    keepAlive := false
    connectionState := .disconnected
    audioBytesSent := 0
    pendingReconnect := none }

/-- `handleReconnect` (lines 282-302): if the attempt counter has reached
`maxReconnectAttempts` it only logs and returns (no timer is scheduled,
second component `none`); otherwise it increments the counter, computes
`delay = reconnectDelay * 2 ^ (attempts - 1)` and schedules a reconnect
callback after that delay (second component `some delay`). -/
def handleReconnect (s : DeepgramSTT) : DeepgramSTT × Option Nat :=
  if s.reconnectAttempts ≥ maxReconnectAttempts then (s, none)
  else
    let attempts := s.reconnectAttempts + 1
    let delay := reconnectDelay * 2 ^ (attempts - 1)
    ({ s with reconnectAttempts := attempts, pendingReconnect := some delay }, some delay)

/-- The `open` event handler registered in `connect()` (lines 161-173):
sets `isConnected`, marks the state `connected`, resets the attempt counter
to zero and starts the keep-alive interval; the socket is now open. -/
def onOpen (s : DeepgramSTT) : DeepgramSTT :=
  { s with wsOpen := some true
           isConnected := true
           connectionState := .connected
           reconnectAttempts := 0
           keepAlive := true }

/-- The `close` event handler registered in `connect()` (lines 182-187):
clears `isConnected`, stops the keep-alive interval and invokes
`handleReconnect` (which may schedule a reconnect, returned as the second
component).  The socket that emitted the event is no longer open. -/
def onClose (s : DeepgramSTT) : DeepgramSTT × Option Nat :=
  let s2 := { s with
    wsOpen := s.wsOpen.map (fun _ => false)
    isConnected := false
    keepAlive := false }
  s2.handleReconnect

/-- `disconnect()` (lines 270-277): stops the keep-alive interval, calls
`ws.close()` and nulls out `ws`, and clears `isConnected`.  Note that the
`connectionState` string, the attempt counter and any pending reconnect
timer are left untouched (no reconnect-timer handle exists to cancel). -/
def disconnect (s : DeepgramSTT) : DeepgramSTT :=
  { s with wsOpen := none, keepAlive := false, isConnected := false }

/-- The body of the reconnect callback up to its suspension point
(lines 293-301): the scheduled timer fires (so it is no longer pending) and
`connect()` runs, which sets the state to `connecting` and creates a fresh,
not-yet-open socket (lines 132-159). -/
def reconnectFire (s : DeepgramSTT) : DeepgramSTT :=
  { s with pendingReconnect := none
           connectionState := .connecting
           wsOpen := some false }

/-- The connectivity test guarding `sendAudio` (line 198):
`isConnected && ws && ws.readyState === OPEN`. -/
def canSend (s : DeepgramSTT) : Bool :=
  s.isConnected && s.wsOpen == some true

inductive SendResult
  | sent
  | droppedWarn
  | errorLogged
  deriving DecidableEq, Repr

/-- `sendAudio` (lines 197-217): when the connectivity guard fails, a
warning is logged and the method returns with the state untouched (the chunk
is dropped, not buffered).  Otherwise `ws.send` is attempted — `sendThrows`
says whether it throws; on success `audioBytesSent` grows by the chunk
length, on a throw the error is caught and logged. -/
def sendAudio (s : DeepgramSTT) (sendThrows : Bool) (audioBuffer : Chunk) :
    DeepgramSTT × SendResult :=
  if !s.canSend then (s, .droppedWarn)
  else if sendThrows then (s, .errorLogged)
  else ({ s with audioBytesSent := s.audioBytesSent + audioBuffer.length }, .sent)

/-- A connected session: the state right after a successful `connect()`
resolution from a fresh client. -/
def connectedInit : DeepgramSTT :=
  onOpen { mk0 with connectionState := .connecting, wsOpen := some false }

/-- The state in which `handleReconnect` runs for the first time after an
unexpected close of a healthy connection (the close handler has already
cleared `isConnected` and the keep-alive). -/
def preReconnect : DeepgramSTT :=
  { connectedInit with
    wsOpen := some false
    isConnected := false
    keepAlive := false }

/-- The channel state after `n` consecutive failed (re)connect attempts,
starting from `preReconnect`: each failure runs `handleReconnect` once (the
first run comes from the close handler, later runs from the catch block of
the reconnect callback, lines 297-300). -/
def afterFailedAttempts : Nat → DeepgramSTT
  | 0 => preReconnect
  | n + 1 => ((afterFailedAttempts n).handleReconnect).1

/-- The backoff delay scheduled before (re)connect attempt `k` in a run of
consecutive failures: the delay returned by the `k`-th invocation of
`handleReconnect`. -/
def delayBeforeAttempt (k : Nat) : Option Nat :=
  ((afterFailedAttempts (k - 1)).handleReconnect).2

end DeepgramSTT

/-! ## VoiceHandler (src/discord/voice.ts — the session controller of
`src/unnamed/part_002`)

Instance fields: `isProcessing` and `transcriptBuffer` are the literal class
fields.  The `silenceTimer` handle is modelled by two bookkeeping fields:
`handleLive` says whether the stored handle refers to a timer that is still
pending (scheduled, not yet fired, not cancelled), and `pendingTimers`
counts how many finalization timers are pending in the runtime.  The two
external suspending calls of a reply cycle — `pipeline.generateResponse`
(the LLM) and `pipeline.synthesizeSpeech` (TTS) — are the environment; an
`Except.error` is a rejected promise (a thrown exception at the `await`). -/

/-- JavaScript `String.prototype.trim`: strip leading and trailing
whitespace (written over the character list so that proofs can evaluate
it). -/
def jsTrim (s : String) : String :=
  String.mk (((s.data.dropWhile Char.isWhitespace).reverse.dropWhile
      Char.isWhitespace).reverse)

structure VoiceHandler where
  isProcessing : Bool
  transcriptBuffer : String
  handleLive : Bool
  pendingTimers : Nat
  deriving DecidableEq, Repr

/-- The external collaborators awaited by the session controller. -/
structure Env where
  generateResponse : String → Except String String
  synthesizeSpeech : String → Except String Chunk

namespace VoiceHandler

/-- Constructor state: `isProcessing = false`, `transcriptBuffer = ''`,
`silenceTimer = null` (so no pending timer). -/
def init : VoiceHandler :=
  { isProcessing := false, transcriptBuffer := "", handleLive := false, pendingTimers := 0 }

/-- `handleTranscription(transcript, isFinal)` (part_002 lines 130-148):
returns at once when the transcript is empty or whitespace-only; otherwise
appends a space and the transcript to the buffer, cancels the stored
finalization timer when it is still pending (`clearTimeout`), and then —
only when `isFinal` is true or the updated buffer exceeds 100 characters —
schedules a new 1000 ms finalization timer and stores its handle. -/
def handleTranscription (s : VoiceHandler) (transcript : String) (isFinal : Bool) :
    VoiceHandler :=
  if jsTrim transcript = "" then s
  else
    let buf := s.transcriptBuffer ++ " " ++ transcript
    let p := if s.handleLive then s.pendingTimers - 1 else s.pendingTimers
    if isFinal = true ∨ buf.length > 100 then
      { s with transcriptBuffer := buf, pendingTimers := p + 1, handleLive := true }
    else
      { s with transcriptBuffer := buf, pendingTimers := p, handleLive := false }

/-- The synchronous prefix of `processTranscript` (part_002 lines 150-157),
up to the first `await`: `none` when the guard
`isProcessing || !transcriptBuffer.trim()` returns early, otherwise the
state after draining (flag set, buffer cleared) together with the drained
input. -/
def processStart (s : VoiceHandler) : Option (VoiceHandler × String) :=
  if s.isProcessing = true ∨ jsTrim s.transcriptBuffer = "" then none
  else some ({ s with isProcessing := true, transcriptBuffer := "" },
             jsTrim s.transcriptBuffer)

/-- `speak(text)` (part_002 lines 172-213): awaits TTS synthesis; a thrown
synthesis error is caught by the surrounding try/catch and only logged
(no playback, second component `none`); empty audio is warned about and
dropped; otherwise the PCM is resampled, Opus-encoded and handed to
`player.play` (the playback submission, second component `some pcm`).
No instance field of the handler is written. -/
def speak (s : VoiceHandler) (env : Env) (text : String) :
    VoiceHandler × Option Chunk :=
  match env.synthesizeSpeech text with
  | .error _ => (s, none)
  | .ok pcm => if pcm.length = 0 then (s, none) else (s, some pcm)

/-- The remainder of `processTranscript` after draining (part_002 lines
159-169): await the LLM reply — a thrown error is caught and logged, and the
`finally` block clears `isProcessing`; on success the reply is spoken
(`speak` catches its own errors) and the `finally` block still clears the
flag. -/
def processFinish (s : VoiceHandler) (env : Env) (input : String) :
    VoiceHandler × Option Chunk :=
  match env.generateResponse input with
  | .error _ => ({ s with isProcessing := false }, none)
  | .ok response =>
      let r := s.speak env response
      ({ r.1 with isProcessing := false }, r.2)

/-- `processTranscript` run atomically (no interleaving at the awaits). -/
def processTranscript (s : VoiceHandler) (env : Env) : VoiceHandler × Option Chunk :=
  match s.processStart with
  | none => (s, none)
  | some (s1, input) => s1.processFinish env input

/-- A pending finalization timer fires and its callback runs up to the first
`await` of `processTranscript`: the timer is consumed (the stored handle
goes stale), then either the guard drops the cycle (second component
`none`) or the buffer is drained (second component carries the input). -/
def fireTimerStart (s : VoiceHandler) : VoiceHandler × Option String :=
  let s0 := { s with pendingTimers := s.pendingTimers - 1, handleLive := false }
  match s0.processStart with
  | none => (s0, none)
  | some (s1, input) => (s1, some input)

/-- A pending finalization timer fires and its callback
(`processTranscript`) runs to completion with no interleaved events. -/
def fireTimer (s : VoiceHandler) (env : Env) : VoiceHandler × Option Chunk :=
  let s0 := { s with pendingTimers := s.pendingTimers - 1, handleLive := false }
  s0.processTranscript env

/-- `stopListening` (part_002 lines 116-128): stops all receiver streams and
disconnects the pipeline (external), and clears the finalization timer —
`clearTimeout` when a handle is stored, then the handle is nulled. -/
def stopListening (s : VoiceHandler) : VoiceHandler :=
  let p := if s.handleLive then s.pendingTimers - 1 else s.pendingTimers
  { s with pendingTimers := p, handleLive := false }

/-- `clearContext` (part_002 lines 220-223): clears the pipeline context
(external) and resets the transcript buffer; timers are untouched. -/
def clearContext (s : VoiceHandler) : VoiceHandler :=
  { s with transcriptBuffer := "" }

end VoiceHandler

/-- One asynchronous event of a session: a transcription event arrives, a
pending finalization timer fires (running the callback to its first await),
an in-flight reply cycle resumes and completes, or the surrounding
application calls `stopListening` / `clearContext`. -/
inductive VHStep (env : Env) : VoiceHandler → VoiceHandler → Prop
  | transcription (t : String) (f : Bool) (s : VoiceHandler) :
      VHStep env s (s.handleTranscription t f)
  | fire (s : VoiceHandler) (h : s.handleLive = true) :
      VHStep env s (s.fireTimerStart).1
  | finish (input : String) (s : VoiceHandler) :
      VHStep env s (s.processFinish env input).1
  | stop (s : VoiceHandler) : VHStep env s s.stopListening
  | clear (s : VoiceHandler) : VHStep env s s.clearContext

/-- Session states reachable from the constructor state. -/
def VHReachable (env : Env) (s : VoiceHandler) : Prop :=
  Relation.ReflTransGen (VHStep env) VoiceHandler.init s

/-! ## VoiceReceiver (src/discord/receiver.ts)

`activeStreams` models the `Map<string, Readable>` from user id to the
per-speaker decode pipeline, with JavaScript `Map.set` semantics (replace in
place when the key exists, append otherwise).  Each call to
`startReceivingUser` builds a fresh subscription → Opus decoder → resampler
→ buffer-transform chain; `createdStreams` counts the chains created so far
and doubles as the fresh chain's identifier. -/

structure VoiceReceiver where
  activeStreams : List (String × Nat)
  createdStreams : Nat
  deriving DecidableEq, Repr

namespace VoiceReceiver

/-- JavaScript `Map.set`: replace the value of an existing key in place,
otherwise append the new entry. -/
def mapSet (k : String) (v : Nat) : List (String × Nat) → List (String × Nat)
  | [] => [(k, v)]
  | (k2, v2) :: rest =>
      if k2 = k then (k, v) :: rest else (k2, v2) :: mapSet k v rest

/-- Constructor state: empty map. -/
def init : VoiceReceiver := { activeStreams := [], createdStreams := 0 }

/-- `startReceivingUser(userId, callback)` (lines 22-86): unconditionally
subscribes to the user's audio, builds a fresh decode chain and stores it in
`activeStreams` under the user id — there is no check whether a stream for
that user is already open. -/
def startReceivingUser (r : VoiceReceiver) (userId : String) : VoiceReceiver :=
  let sid := r.createdStreams
  { activeStreams := mapSet userId sid r.activeStreams
    createdStreams := r.createdStreams + 1 }

/-- `stopReceivingUser(userId)` (lines 91-98): destroys and removes the
user's stream if present. -/
def stopReceivingUser (r : VoiceReceiver) (userId : String) : VoiceReceiver :=
  { r with activeStreams := r.activeStreams.filter (fun p => p.1 ≠ userId) }

/-- `getActiveUsers` (lines 113-115): the keys of the map. -/
def getActiveUsers (r : VoiceReceiver) : List String :=
  r.activeStreams.map Prod.fst

end VoiceReceiver

/-! ## Silence Gate

The repository's tests (tests/voice/pipeline.test.ts lines 333-346) exercise
`pipeline.detectSilence`, but the enhanced `VoicePipeline` carrying that
method is not among the source files; only its tests and callers are.
The function is therefore modelled from the spec. -/

/-- Modelled from the spec: decode little-endian signed 16-bit samples from
a byte sequence; a trailing byte shorter than one sample pair is ignored. -/
def int16At (lo hi : Nat) : Int :=
  let u := lo % 256 + 256 * (hi % 256)
  if u < 32768 then (u : Int) else (u : Int) - 65536

/-- Modelled from the spec: the 16-bit samples of a PCM chunk. -/
def pcmSamples : Chunk → List Int
  | lo :: hi :: rest => int16At lo hi :: pcmSamples rest
  | _ => []

/-- Modelled from the spec: the bounded scan length — "inspect up to the
first N samples (bounded scan, e.g., 500 16-bit samples)". -/
def maxScanSamples : Nat := 500

/-- Modelled from the spec: the fixed amplitude threshold the peak is
compared against (the spec fixes no numeric value; the claims below hold
for any positive choice). -/
def silenceThreshold : Nat := 500

/-- Modelled from the spec: `is_silence(PCM_chunk)` — the missing
`VoicePipeline.detectSilence`.  Pure function over sample amplitudes:
inspect up to the first `maxScanSamples` samples, compare the peak absolute
amplitude against the fixed threshold, and report silence when the peak is
below it; a chunk shorter than one sample pair has no samples and is
treated as silence. -/
def detectSilence (chunk : Chunk) : Bool :=
  let samples := (pcmSamples chunk).take maxScanSamples
  let peak := samples.foldl (fun m v => max m v.natAbs) 0
  decide (peak < silenceThreshold)

/-! ## Shared environments and helper lemmas -/

/-- An environment whose external LLM and TTS calls both throw. -/
def envThrow : Env :=
  { generateResponse := fun _ => Except.error "generation failed"
    synthesizeSpeech := fun _ => Except.error "synthesis failed" }

/-- An environment whose external LLM and TTS calls both succeed. -/
def envOk : Env :=
  { generateResponse := fun t => Except.ok ("reply to " ++ t)
    synthesizeSpeech := fun _ => Except.ok [1, 2] }

/-- `speak` never writes an instance field of the handler. -/
theorem VoiceHandler.speak_fst (s : VoiceHandler) (env : Env) (t : String) :
    (s.speak env t).1 = s := by
  unfold VoiceHandler.speak
  cases env.synthesizeSpeech t with
  | error e => rfl
  | ok pcm =>
      by_cases h : pcm.length = 0 <;> simp [h]

/-- Whatever the two external calls do, the tail of a reply cycle only
clears the processing flag (the `finally` block) and produces at most a
playback submission. -/
theorem VoiceHandler.processFinish_fst (s : VoiceHandler) (env : Env) (input : String) :
    (s.processFinish env input).1 = { s with isProcessing := false } := by
  unfold VoiceHandler.processFinish
  cases env.generateResponse input with
  | error e => rfl
  | ok r => simp [VoiceHandler.speak_fst]

/-- Characterization of a successful drain: the guard was false and the
drained state/input are as written in the source. -/
theorem VoiceHandler.processStart_some {s s1 : VoiceHandler} {input : String}
    (h : s.processStart = some (s1, input)) :
    s.isProcessing = false ∧
    s1 = { s with isProcessing := true, transcriptBuffer := "" } ∧
    input = jsTrim s.transcriptBuffer := by
  unfold VoiceHandler.processStart at h
  split at h
  · exact absurd h (by simp)
  · next hc =>
      push_neg at hc
      injection h with h2
      obtain ⟨h3, h4⟩ := Prod.mk.injEq .. |>.mp h2
      exact ⟨by simpa using hc.1, h3.symm, h4.symm⟩

/-- The timer-bookkeeping invariant: the number of pending finalization
timers is one exactly when the stored handle is live, zero otherwise. -/
def TimerInv (s : VoiceHandler) : Prop :=
  s.pendingTimers = if s.handleLive then 1 else 0

theorem timerInv_init : TimerInv VoiceHandler.init := by
  simp [TimerInv, VoiceHandler.init]

theorem fireTimerStart_timerFields (s : VoiceHandler) :
    ((s.fireTimerStart).1).pendingTimers = s.pendingTimers - 1 ∧
    ((s.fireTimerStart).1).handleLive = false := by
  unfold VoiceHandler.fireTimerStart
  cases h : VoiceHandler.processStart
      { s with pendingTimers := s.pendingTimers - 1, handleLive := false } with
  | none => simp [h]
  | some p =>
      obtain ⟨_, h1, _⟩ := VoiceHandler.processStart_some
        (show _ = some (p.1, p.2) by simpa using h)
      simp [h, h1]

theorem timerInv_step {env : Env} {s s2 : VoiceHandler}
    (h : TimerInv s) (st : VHStep env s s2) : TimerInv s2 := by
  cases st with
  | transcription t f s =>
      unfold TimerInv at *
      by_cases h0 : jsTrim t = ""
      · simpa [VoiceHandler.handleTranscription, h0] using h
      · by_cases h1 : f = true ∨ (s.transcriptBuffer ++ " " ++ t).length > 100
        · simp only [VoiceHandler.handleTranscription, h0, h1, if_true, if_false,
            ite_true, ite_false, if_neg, not_false_eq_true]
          cases hb : s.handleLive <;> simp [hb] at h ⊢ <;> omega
        · simp only [VoiceHandler.handleTranscription, h0, h1, if_true, if_false,
            ite_true, ite_false, if_neg, not_false_eq_true]
          cases hb : s.handleLive <;> simp [hb] at h ⊢ <;> omega
  | fire s hl =>
      obtain ⟨h1, h2⟩ := fireTimerStart_timerFields s
      unfold TimerInv at *
      rw [h1, h2]
      rw [hl] at h
      simp at h ⊢
      omega
  | finish input s =>
      unfold TimerInv at *
      rw [VoiceHandler.processFinish_fst]
      exact h
  | stop s =>
      unfold TimerInv VoiceHandler.stopListening at *
      cases hb : s.handleLive <;> simp [hb] at h ⊢ <;> omega
  | clear s =>
      unfold TimerInv VoiceHandler.clearContext at *
      exact h

theorem timerInv_reachable {env : Env} {s : VoiceHandler}
    (h : VHReachable env s) : TimerInv s := by
  induction h with
  | refl => exact timerInv_init
  | tail _ hstep ih => exact timerInv_step ih hstep

/-- `Map.set` on an existing key leaves the key sequence unchanged. -/
theorem VoiceReceiver.mapSet_keys (k : String) (v : Nat) :
    ∀ l : List (String × Nat), k ∈ l.map Prod.fst →
      (VoiceReceiver.mapSet k v l).map Prod.fst = l.map Prod.fst := by
  intro l
  induction l with
  | nil => intro h; simp at h
  | cons p rest ih =>
      intro h
      unfold VoiceReceiver.mapSet
      by_cases hk : p.1 = k
      · simp [hk]
      · have hm : k ∈ rest.map Prod.fst := by
          rcases List.mem_cons.mp h with h1 | h1
          · exact absurd h1.symm hk
          · exact h1
        simp [hk, ih hm]

/-- `Map.set` stores the new value under the key. -/
theorem VoiceReceiver.mapSet_lookup (k : String) (v : Nat) :
    ∀ l : List (String × Nat), (VoiceReceiver.mapSet k v l).lookup k = some v := by
  intro l
  induction l with
  | nil => simp [VoiceReceiver.mapSet, List.lookup]
  | cons p rest ih =>
      unfold VoiceReceiver.mapSet
      by_cases hk : p.1 = k
      · simp [hk, List.lookup]
      · have hne : (k == p.1) = false := by
          simp [beq_eq_false_iff_ne]
          exact fun he => hk he.symm
        simp [hk, List.lookup, hne, ih]

/-! ## Claims -/

/-- C2 (confirmed): in every reply cycle, the processing flag is false
before the drain, is set to true the instant the utterance is drained, and
— whatever the external reply-generation and synthesis calls do, including
throwing — the `finally`-equivalent tail of the cycle resets it to false,
so a single failed cycle cannot leave the session permanently busy. -/
theorem claim_C2_flag_guaranteed_release :
    ∀ (s s1 : VoiceHandler) (input : String),
      s.processStart = some (s1, input) →
      s.isProcessing = false ∧ s1.isProcessing = true ∧
      ∀ env : Env, ((s1.processFinish env input).1).isProcessing = false := by
  intro s s1 input h
  obtain ⟨h0, h1, _⟩ := VoiceHandler.processStart_some h
  refine ⟨h0, by rw [h1], fun env => ?_⟩
  rw [VoiceHandler.processFinish_fst]

theorem claim_C2_flag_guaranteed_release_witness :
    ((⟨false, " hi", true, 1⟩ : VoiceHandler).processStart
        = some (⟨true, "", true, 1⟩, "hi")) ∧
    (((⟨true, "", true, 1⟩ : VoiceHandler).processFinish envThrow "hi").1).isProcessing
        = false := by
  refine ⟨by decide, ?_⟩
  exact (claim_C2_flag_guaranteed_release ⟨false, " hi", true, 1⟩
    ⟨true, "", true, 1⟩ "hi" (by decide)).2.2 envThrow

/-- C1 (counterexample): the claim says an utterance finalized while
`processing` is true is dropped entirely and that the transcript buffer
does not retain its text for a later reply cycle.  On the concrete trace
below, the finalization timer fires while a cycle for "hello" is in flight:
the guard returns early, but the buffer still holds " world", and once the
first cycle completes and one more final fragment arrives, the next drain
hands "world again" — the supposedly dropped text — to reply generation. -/
theorem claim_C1_counterexample :
    ((((VoiceHandler.init.handleTranscription "hello" true).fireTimerStart).1.handleTranscription
        "world" true).fireTimerStart).2 = none ∧
    ((((VoiceHandler.init.handleTranscription "hello" true).fireTimerStart).1.handleTranscription
        "world" true).fireTimerStart).1.transcriptBuffer = " world" ∧
    (((((((VoiceHandler.init.handleTranscription "hello" true).fireTimerStart).1.handleTranscription
        "world" true).fireTimerStart).1.processFinish envOk "hello").1.handleTranscription
        "again" true).fireTimerStart).2 = some "world again" := by
  decide

/-- C1 (amended): when the finalization timer fires while the processing
flag is true, the callback consumes the timer and returns without draining:
no reply is generated for the firing and nothing is queued as a separate
utterance, but the transcript buffer is NOT cleared — its text is retained
and may be included in a later reply cycle.  The flag itself transitions
false → true → false exactly once per actually-processed utterance. -/
theorem claim_C1_drop_semantics :
    (∀ s : VoiceHandler, s.isProcessing = true →
      s.fireTimerStart =
        ({ s with pendingTimers := s.pendingTimers - 1, handleLive := false }, none)) ∧
    (∀ (s s1 : VoiceHandler) (input : String),
      s.processStart = some (s1, input) →
      s.isProcessing = false ∧ s1.isProcessing = true ∧
      ∀ env : Env, ((s1.processFinish env input).1).isProcessing = false) := by
  constructor
  · intro s h
    unfold VoiceHandler.fireTimerStart VoiceHandler.processStart
    simp [h]
  · intro s s1 input h
    obtain ⟨h0, h1, _⟩ := VoiceHandler.processStart_some h
    refine ⟨h0, by rw [h1], fun env => ?_⟩
    rw [VoiceHandler.processFinish_fst]

theorem claim_C1_drop_semantics_witness :
    (⟨true, " world", true, 1⟩ : VoiceHandler).fireTimerStart =
      (⟨true, " world", false, 0⟩, none) :=
  claim_C1_drop_semantics.1 ⟨true, " world", true, 1⟩ rfl

/-- C6 (counterexample): the claim says every arrival of non-empty text
cancels the pending finalization timer AND reschedules it.  After a first
final fragment arms the timer, a second, non-final fragment that leaves the
buffer at or below 100 characters cancels the timer without rescheduling:
no timer is pending afterwards. -/
theorem claim_C6_counterexample :
    (jsTrim "more" = "") = False ∧
    (VoiceHandler.init.handleTranscription "hello" true).handleLive = true ∧
    (VoiceHandler.init.handleTranscription "hello" true).pendingTimers = 1 ∧
    ((VoiceHandler.init.handleTranscription "hello" true).handleTranscription
        "more" false).handleLive = false ∧
    ((VoiceHandler.init.handleTranscription "hello" true).handleTranscription
        "more" false).pendingTimers = 0 := by
  decide

/-- C6 (amended): at most one finalization timer is pending in any
reachable session state; an arrival of non-empty transcript text always
cancels the previously pending timer, but a new 1000 ms timer is scheduled
only when `is_final` is true or the updated buffer exceeds 100 characters —
otherwise no timer remains pending. -/
theorem claim_C6_timer_discipline :
    (∀ (env : Env) (s : VoiceHandler), VHReachable env s → s.pendingTimers ≤ 1) ∧
    (∀ (s : VoiceHandler) (t : String) (f : Bool),
      s.pendingTimers = (if s.handleLive then 1 else 0) →
      jsTrim t ≠ "" →
      (s.handleTranscription t f).pendingTimers =
        (if f = true ∨ (s.transcriptBuffer ++ " " ++ t).length > 100 then 1 else 0) ∧
      ((s.handleTranscription t f).handleLive = true ↔
        (f = true ∨ (s.transcriptBuffer ++ " " ++ t).length > 100))) := by
  constructor
  · intro env s h
    have hi := timerInv_reachable h
    unfold TimerInv at hi
    rw [hi]
    split <;> omega
  · intro s t f hinv h0
    by_cases h1 : f = true ∨ (s.transcriptBuffer ++ " " ++ t).length > 100
    · simp only [VoiceHandler.handleTranscription, h0, h1, if_true, ite_true,
        if_neg, not_false_eq_true]
      constructor
      · cases hb : s.handleLive <;> simp [hb] at hinv ⊢ <;> omega
      · simp [h1]
    · simp only [VoiceHandler.handleTranscription, h0, h1, if_false, ite_false,
        if_neg, not_false_eq_true]
      constructor
      · cases hb : s.handleLive <;> simp [hb] at hinv ⊢ <;> omega
      · simp [h1]

theorem claim_C6_timer_discipline_witness :
    (VoiceHandler.init.handleTranscription "hello" true).pendingTimers = 1 := by
  have h := (claim_C6_timer_discipline.2 VoiceHandler.init "hello" true
    (by decide) (by decide)).1
  simpa using h

/-- C7 (counterexample): the claim says the user-facing effect of a failed
reply-generation call is a fallback spoken apology.  On the concrete trace
below, the LLM call throws during the cycle and the catch block only logs:
no playback of any kind is submitted (second component `none`) — there is
no apology path in the source; the flag is still cleared. -/
theorem claim_C7_counterexample :
    ((VoiceHandler.init.handleTranscription "hello" true).fireTimer envThrow).2 = none ∧
    ((VoiceHandler.init.handleTranscription "hello" true).fireTimer
        envThrow).1.isProcessing = false := by
  decide

/-- C7 (amended): errors of the external reply-generation and synthesis
calls are caught at the session-controller boundary (the cycle and `speak`
always return normally in this model — no unhandled exception escapes): a
cycle whose LLM call throws produces no playback at all (there is no
fallback apology) and still clears the processing flag, and a `speak` whose
synthesis call throws is a no-op (state unchanged, no playback). -/
theorem claim_C7_error_recovery :
    (∀ (env : Env) (s : VoiceHandler) (input e : String),
      env.generateResponse input = Except.error e →
      s.processFinish env input = ({ s with isProcessing := false }, none)) ∧
    (∀ (env : Env) (s : VoiceHandler) (text e : String),
      env.synthesizeSpeech text = Except.error e →
      s.speak env text = (s, none)) := by
  constructor
  · intro env s input e h
    unfold VoiceHandler.processFinish
    rw [h]
  · intro env s text e h
    unfold VoiceHandler.speak
    rw [h]

theorem claim_C7_error_recovery_witness :
    ((⟨true, "", false, 0⟩ : VoiceHandler).processFinish envThrow "hello" =
      (⟨false, "", false, 0⟩, none)) ∧
    ((⟨false, "", false, 0⟩ : VoiceHandler).speak envThrow "hi" =
      (⟨false, "", false, 0⟩, none)) :=
  ⟨claim_C7_error_recovery.1 envThrow ⟨true, "", false, 0⟩ "hello"
      "generation failed" rfl,
   claim_C7_error_recovery.2 envThrow ⟨false, "", false, 0⟩ "hi"
      "synthesis failed" rfl⟩

/-- C3 (confirmed): in a run of consecutive failed (re)connect attempts the
delay scheduled before attempt `k` (1 ≤ k ≤ 5) is
`reconnectDelay * 2 ^ (k - 1)`, i.e. 1000, 2000, 4000, 8000, 16000 ms; the
sixth invocation of `handleReconnect` schedules nothing and leaves the
state unchanged (so no further attempt ever happens); and a successful
connection (`open` event) resets the attempt counter to zero. -/
theorem claim_C3_reconnect_policy :
    (∀ k : Nat, 1 ≤ k → k ≤ 5 →
      DeepgramSTT.delayBeforeAttempt k =
        some (DeepgramSTT.reconnectDelay * 2 ^ (k - 1))) ∧
    ((DeepgramSTT.afterFailedAttempts 5).handleReconnect =
      (DeepgramSTT.afterFailedAttempts 5, none)) ∧
    (∀ s : DeepgramSTT, (s.onOpen).reconnectAttempts = 0) := by
  refine ⟨?_, by decide, fun s => rfl⟩
  intro k h1 h5
  interval_cases k <;> rfl

theorem claim_C3_reconnect_policy_witness :
    DeepgramSTT.delayBeforeAttempt 5 =
      some (DeepgramSTT.reconnectDelay * 2 ^ 4) :=
  claim_C3_reconnect_policy.1 5 (by norm_num) (by norm_num)

/-- C4 (counterexample): the claim says an intentional `disconnect()` never
leads to a scheduled reconnect and cancels any pending reconnect timer.
Concretely: disconnecting a healthy connection closes the socket, the
resulting `close` event still runs `handleReconnect`, which schedules a
reconnect after 1000 ms; when that timer fires, `connect()` puts the
channel back into the `connecting` state.  Moreover a reconnect timer that
is already pending when `disconnect()` is called stays pending — no handle
to it is ever stored, so nothing can cancel it. -/
theorem claim_C4_counterexample :
    ((DeepgramSTT.connectedInit.disconnect).onClose).2 = some 1000 ∧
    ((((DeepgramSTT.connectedInit.disconnect).onClose).1).reconnectFire).connectionState
      = ConnState.connecting ∧
    (({ DeepgramSTT.connectedInit with
        pendingReconnect := some 2000 } : DeepgramSTT).disconnect).pendingReconnect
      = some 2000 := by
  decide

/-- C4 (amended): `disconnect()` cancels the keep-alive timer, closes and
nulls the socket and clears the connected flag, but it does not touch any
pending reconnect timer (none is ever stored), and the `close` event caused
by the deliberate teardown still invokes the reconnect handler, which
schedules a reconnect whenever the attempt ceiling has not been reached. -/
theorem claim_C4_disconnect_behavior :
    (∀ s : DeepgramSTT,
      (s.disconnect).keepAlive = false ∧
      (s.disconnect).wsOpen = none ∧
      (s.disconnect).isConnected = false ∧
      (s.disconnect).pendingReconnect = s.pendingReconnect) ∧
    (∀ s : DeepgramSTT,
      s.reconnectAttempts < DeepgramSTT.maxReconnectAttempts →
      (((s.disconnect).onClose).2).isSome = true) := by
  refine ⟨fun s => ⟨rfl, rfl, rfl, rfl⟩, fun s h => ?_⟩
  unfold DeepgramSTT.disconnect DeepgramSTT.onClose DeepgramSTT.handleReconnect
  simp [Nat.not_le.mpr h]

theorem claim_C4_disconnect_behavior_witness :
    (((DeepgramSTT.connectedInit.disconnect).onClose).2).isSome = true :=
  claim_C4_disconnect_behavior.2 DeepgramSTT.connectedInit (by decide)

/-- C5 (confirmed): `sendAudio` forwards a chunk if and only if the
connectivity guard of the source holds (`isConnected` with an open socket);
when it fails the chunk is dropped with a warning and the method returns
with the channel state bit-for-bit unchanged — nothing is buffered and
`audioBytesSent` is untouched; when it holds and the socket send does not
throw, the chunk is sent and `audioBytesSent` grows by its length. -/
theorem claim_C5_send_gate :
    ∀ (s : DeepgramSTT) (b : Bool) (chunk : Chunk),
      ((s.sendAudio b chunk).2 = DeepgramSTT.SendResult.droppedWarn ↔
        s.canSend = false) ∧
      (s.canSend = false →
        s.sendAudio b chunk = (s, DeepgramSTT.SendResult.droppedWarn)) ∧
      (s.canSend = true → b = false →
        (s.sendAudio b chunk).2 = DeepgramSTT.SendResult.sent ∧
        (s.sendAudio b chunk).1 =
          { s with audioBytesSent := s.audioBytesSent + chunk.length }) := by
  intro s b chunk
  unfold DeepgramSTT.sendAudio
  cases hc : s.canSend <;> cases b <;> simp [hc]

theorem claim_C5_send_gate_witness :
    DeepgramSTT.mk0.sendAudio false [1, 2] =
      (DeepgramSTT.mk0, DeepgramSTT.SendResult.droppedWarn) :=
  (claim_C5_send_gate DeepgramSTT.mk0 false [1, 2]).2.1 rfl

/-- C9 (counterexample): the claim says re-issuing `start_listening` for an
already-open speaker is a no-op.  Concretely, issuing
`startReceivingUser "u"` twice from the empty receiver creates a second
subscription/decode chain (`createdStreams = 2`), replaces the stored
stream for "u" by the new chain, and yields a state different from the one
after the first call. -/
theorem claim_C9_counterexample :
    ((VoiceReceiver.init.startReceivingUser "u").startReceivingUser "u").createdStreams
      = 2 ∧
    ((VoiceReceiver.init.startReceivingUser "u").startReceivingUser "u").activeStreams
      = [("u", 1)] ∧
    (VoiceReceiver.init.startReceivingUser "u").startReceivingUser "u" ≠
      VoiceReceiver.init.startReceivingUser "u" := by
  decide

/-- C9 (amended): re-issuing `startReceivingUser` for a speaker whose
stream is already open is not a no-op: it creates one additional
subscription/decode chain and replaces the stored stream for that speaker
with the fresh chain; only the set of active speaker ids is unchanged. -/
theorem claim_C9_relisten_not_noop :
    ∀ (r : VoiceReceiver) (u : String),
      u ∈ r.getActiveUsers →
      (r.startReceivingUser u).getActiveUsers = r.getActiveUsers ∧
      (r.startReceivingUser u).createdStreams = r.createdStreams + 1 ∧
      ((r.startReceivingUser u).activeStreams).lookup u = some r.createdStreams := by
  intro r u hu
  refine ⟨?_, rfl, ?_⟩
  · unfold VoiceReceiver.getActiveUsers VoiceReceiver.startReceivingUser at *
    exact VoiceReceiver.mapSet_keys u r.createdStreams r.activeStreams hu
  · unfold VoiceReceiver.startReceivingUser
    exact VoiceReceiver.mapSet_lookup u r.createdStreams r.activeStreams

theorem claim_C9_relisten_not_noop_witness :
    ((VoiceReceiver.init.startReceivingUser "u").startReceivingUser
        "u").getActiveUsers = ["u"] ∧
    ((VoiceReceiver.init.startReceivingUser "u").startReceivingUser
        "u").createdStreams = 2 := by
  have h := claim_C9_relisten_not_noop (VoiceReceiver.init.startReceivingUser "u")
    "u" (by decide)
  exact ⟨by rw [h.1]; decide, h.2.1⟩

/-- The samples of an all-zero byte sequence are all zero. -/
theorem pcmSamples_replicate_zero :
    ∀ n : Nat, pcmSamples (List.replicate n 0) = List.replicate (n / 2) 0
  | 0 => rfl
  | 1 => rfl
  | n + 2 => by
      show pcmSamples (0 :: 0 :: List.replicate n 0) = _
      rw [pcmSamples, pcmSamples_replicate_zero n]
      have h2 : (n + 2) / 2 = n / 2 + 1 := Nat.add_div_right n (by norm_num)
      rw [h2, List.replicate_succ]
      norm_num [int16At]

/-- Folding the peak-amplitude update over zero samples keeps the
accumulator. -/
theorem foldl_peak_replicate_zero :
    ∀ (k : Nat) (a : Nat),
      (List.replicate k (0 : Int)).foldl (fun m v => max m v.natAbs) a = a := by
  intro k
  induction k with
  | zero => intro a; rfl
  | succ k ih =>
      intro a
      rw [List.replicate_succ, List.foldl_cons]
      simpa using ih a

/-- The peak-amplitude fold is at least its accumulator. -/
theorem le_foldl_peak :
    ∀ (l : List Int) (a : Nat), a ≤ l.foldl (fun m v => max m v.natAbs) a := by
  intro l
  induction l with
  | nil => intro a; exact Nat.le_refl a
  | cons x l ih =>
      intro a
      rw [List.foldl_cons]
      exact Nat.le_trans (Nat.le_max_left a x.natAbs) (ih _)

/-- C8 (confirmed, modelled from the spec): the silence gate is a pure
function of the input bytes.  Every all-zero PCM buffer of length at least
two bytes is classified as silence; every buffer whose first sample's
absolute amplitude exceeds the threshold is classified as non-silence; and
every chunk shorter than one sample pair is classified as silence. -/
theorem claim_C8_silence_gate :
    (∀ n : Nat, 2 ≤ n → detectSilence (List.replicate n 0) = true) ∧
    (∀ (lo hi : Nat) (rest : Chunk),
      silenceThreshold < (int16At lo hi).natAbs →
      detectSilence (lo :: hi :: rest) = false) ∧
    (∀ chunk : Chunk, chunk.length < 2 → detectSilence chunk = true) := by
  refine ⟨?_, ?_, ?_⟩
  · intro n _
    unfold detectSilence
    dsimp only
    rw [pcmSamples_replicate_zero, List.take_replicate,
      foldl_peak_replicate_zero]
    rfl
  · intro lo hi rest h
    unfold detectSilence
    dsimp only
    have hs : (pcmSamples (lo :: hi :: rest)).take maxScanSamples =
        int16At lo hi :: (pcmSamples rest).take 499 := rfl
    rw [hs, List.foldl_cons]
    have hge : silenceThreshold ≤
        ((pcmSamples rest).take 499).foldl (fun m v => max m v.natAbs)
          (max 0 (int16At lo hi).natAbs) := by
      refine Nat.le_trans ?_ (le_foldl_peak _ _)
      exact Nat.le_trans (Nat.le_of_lt h) (Nat.le_max_right 0 _)
    simpa using Nat.not_lt.mpr hge
  · intro chunk h
    match chunk with
    | [] => rfl
    | [b] => rfl
    | a :: b :: rest => exact absurd h (by simp)

theorem claim_C8_silence_gate_witness :
    detectSilence (List.replicate 4 0) = true ∧
    detectSilence [0, 16] = false ∧
    detectSilence [5] = true :=
  ⟨claim_C8_silence_gate.1 4 (by norm_num),
   claim_C8_silence_gate.2.1 0 16 [] (by decide),
   claim_C8_silence_gate.2.2 [5] (by decide)⟩

/-- C10 (confirmed): `VoicePipeline.processAudio` returns the empty string
for every input buffer (it is total, so it never throws), and feeding its
output through the session controller's transcription handler leaves the
session state unchanged — the inbound per-speaker audio path wired through
`startListeningToUser` can never produce an utterance or a reply. -/
theorem claim_C10_inbound_audio_inert :
    (∀ buf : Chunk, VoicePipeline.processAudio buf = "") ∧
    (∀ (s : VoiceHandler) (f : Bool) (buf : Chunk),
      s.handleTranscription (VoicePipeline.processAudio buf) f = s) := by
  refine ⟨fun _ => rfl, fun s f buf => ?_⟩
  unfold VoiceHandler.handleTranscription VoicePipeline.processAudio
  simp [jsTrim]
